import Mathlib

/-!
Shallow embedding of the Pomodoro application's core logic (`src/app.py`):
the `PomodoroTimer` state machine and the weekly statistics aggregation of
`StatsWindow._update_display`.  Python integers are modelled by `Int`,
Python strings by `String` (the code uses the strings "idle" / "running" /
"paused" for states and "work" / "short_break" / "long_break" for session
types).  A Python method that can raise `KeyError` is modelled by returning
the mutated object together with a `Bool` success flag (`false` = the
exception was raised after the assignments that precede the failing lookup).
-/

/-- The timer settings dictionary (`data["settings"]`), with the four numeric
keys the engine reads: `work_duration`, `short_break`, `long_break` and
`sessions_per_long_break` (all in minutes / counts, validated positive by the
settings window). -/
structure Settings where
  work_duration : Int
  short_break : Int
  long_break : Int
  sessions_per_long_break : Int
  deriving Repr, DecidableEq

/-- Dictionary read `settings[key]` restricted to the keys the engine uses;
an absent key is a `KeyError`, modelled as `none`. -/
def Settings.get (s : Settings) (key : String) : Option Int :=
  if key = "work_duration" then some s.work_duration
  else if key = "short_break" then some s.short_break
  else if key = "long_break" then some s.long_break
  else if key = "sessions_per_long_break" then some s.sessions_per_long_break
  else none

/-- The mutable fields of `PomodoroTimer` together with its settings
reference. -/
structure PomodoroTimer where
  settings : Settings
  state : String
  session_type : String
  time_left : Int
  completed_sessions : Int
  deriving Repr, DecidableEq

namespace PomodoroTimer

/-- `PomodoroTimer.reset`: state `idle`, session type `work`,
`time_left = settings["work_duration"] * 60`, completed sessions `0`. -/
def reset (t : PomodoroTimer) : PomodoroTimer :=
  { t with
    state := "idle"
    session_type := "work"
    time_left := t.settings.work_duration * 60
    completed_sessions := 0 }

/-- `PomodoroTimer.__init__`: stores the settings and calls `reset`. -/
def init (s : Settings) : PomodoroTimer :=
  reset { settings := s, state := "", session_type := "", time_left := 0,
          completed_sessions := 0 }

/-- `PomodoroTimer.start`: set state to `running` if it is not already. -/
def start (t : PomodoroTimer) : PomodoroTimer :=
  if t.state ≠ "running" then { t with state := "running" } else t

/-- `PomodoroTimer.pause`: set state to `paused` if currently `running`. -/
def pause (t : PomodoroTimer) : PomodoroTimer :=
  if t.state = "running" then { t with state := "paused" } else t

/-- The `key_map` dictionary lookup inside
`PomodoroTimer._get_duration_for_session`; `none` is a `KeyError`. -/
def key_map (session_type : String) : Option String :=
  if session_type = "work" then some "work_duration"
  else if session_type = "short_break" then some "short_break"
  else if session_type = "long_break" then some "long_break"
  else none

/-- `PomodoroTimer._get_duration_for_session`: translate the session type via
`key_map`, read the settings value and convert minutes to seconds; `none`
models the `KeyError` raised for an unknown session type. -/
def get_duration_for_session (t : PomodoroTimer) : Option Int :=
  match key_map t.session_type with
  | some duration_key =>
      match t.settings.get duration_key with
      | some minutes => some (minutes * 60)
      | none => none
  | none => none

/-- `PomodoroTimer.set_session`: assigns `state = idle` and
`session_type = new_type` first, then loads the duration.  The returned
`Bool` is `false` when the duration lookup raises `KeyError`, in which case
the timer keeps the two assignments already made and the stale `time_left`. -/
def set_session (t : PomodoroTimer) (session_type : String) :
    PomodoroTimer × Bool :=
  let t1 := { t with state := "idle", session_type := session_type }
  match t1.get_duration_for_session with
  | some d => ({ t1 with time_left := d }, true)
  | none => (t1, false)

/-- `PomodoroTimer.tick`: the returned `Option String` is the completion
event (`"work_complete"` / `"break_complete"`) or `none`.  The Python locals
`t1` (after the decrement) and `t2` (after the `state = idle` assignment) are
inlined: the second guard reads the decremented `time_left`, the session-type
test reads the unchanged `session_type`. -/
def tick (t : PomodoroTimer) : PomodoroTimer × Option String :=
  if t.state ≠ "running" ∨ t.time_left ≤ 0 then (t, none)
  else if t.time_left - 1 > 0 then ({ t with time_left := t.time_left - 1 }, none)
  else if t.session_type = "work" then
    ({ t with time_left := t.time_left - 1, state := "idle", completed_sessions := t.completed_sessions + 1 }, some "work_complete")
  else
    ({ t with time_left := t.time_left - 1, state := "idle" }, some "break_complete")

/-- `PomodoroTimer.get_next_break_type`: pure query (the method body assigns
no field), deciding between a short and a long break. -/
def get_next_break_type (t : PomodoroTimer) : String :=
  let sessions_for_long_break := t.settings.sessions_per_long_break
  if t.completed_sessions = 0 then "short_break"
  else if t.completed_sessions % sessions_for_long_break = 0 then "long_break"
  else "short_break"

/-- Iterate `tick`, keeping only the timer (the driver invokes `tick` once
per second and handles each event as it arrives). -/
def tickN (t : PomodoroTimer) : Nat → PomodoroTimer
  | 0 => t
  | k + 1 => tickN (tick t).1 k

end PomodoroTimer

/-- The positivity invariant the settings window enforces on user input
(`_on_settings_change` rejects non-positive and non-numeric values). -/
def Settings.valid (s : Settings) : Prop :=
  0 < s.work_duration ∧ 0 < s.short_break ∧ 0 < s.long_break ∧
  0 < s.sessions_per_long_break

/-- One engine operation of the `PomodoroTimer` interface, as invoked by the
driving `MainWindow`. -/
inductive Op where
  | reset
  | start
  | pause
  | set_session (new_type : String)
  | tick
  | get_next_break_type
  deriving Repr, DecidableEq

/-- Execute one operation on the timer, keeping the post-state of the object
(for `set_session` this is the object state even when the duration lookup
raises, since the Python object survives the exception; `get_next_break_type`
assigns no field, so it leaves the timer unchanged). -/
def Op.apply (t : PomodoroTimer) : Op → PomodoroTimer
  | .reset => t.reset
  | .start => t.start
  | .pause => t.pause
  | .set_session new_type => (t.set_session new_type).1
  | .tick => t.tick.1
  | .get_next_break_type => t

/-- An operation is valid when any session type it passes is one of the
three the engine knows. -/
def Op.valid : Op → Prop
  | .set_session new_type =>
      new_type = "work" ∨ new_type = "short_break" ∨ new_type = "long_break"
  | _ => True

/-- Run a whole sequence of engine operations. -/
def run (t : PomodoroTimer) (ops : List Op) : PomodoroTimer :=
  ops.foldl Op.apply t

/-!
Weekly statistics (`StatsWindow._update_display`).  A calendar date is its
proleptic-Gregorian ordinal (the value of Python's `date.toordinal()`:
0001-01-01 is day 1, a Monday), so `date.weekday()` is `(o + 6) % 7`.
-/

/-- Python's `date.weekday()`: 0 for Monday through 6 for Sunday. -/
def date_weekday (o : Int) : Nat := ((o + 6) % 7).toNat

/-- Gregorian leap-year test. -/
def isLeapYear (y : Nat) : Bool := y % 4 == 0 && (y % 100 != 0 || y % 400 == 0)

/-- Days in year `y` before the first of month `m` (1-based). -/
def days_before_month (y m : Nat) : Nat :=
  [0, 31, 59, 90, 120, 151, 181, 212, 243, 273, 304, 334].getD (m - 1) 0 +
    (if 2 < m ∧ isLeapYear y then 1 else 0)

/-- Python's `date(y, m, d).toordinal()`: proleptic-Gregorian day number. -/
def toordinal (y m d : Nat) : Int :=
  365 * ((y : Int) - 1) + ((y : Int) - 1) / 4 - ((y : Int) - 1) / 100 +
    ((y : Int) - 1) / 400 + days_before_month y m + d

/-- The `start_of_week` computation of `StatsWindow._update_display`:
`today - timedelta(days=today.weekday()) + timedelta(weeks=week_offset)`. -/
def start_of_week (today : Int) (week_offset : Int) : Int :=
  today - date_weekday today + 7 * week_offset

/-- The counting loop of `StatsWindow._update_display`: starting from seven
zeros, every session whose date lies in the inclusive window gets added to
the bucket of its weekday; sessions outside the window are skipped. -/
def counts_per_day (sessions : List Int) (start_day end_day : Int) : List Nat :=
  sessions.foldl
    (fun counts d =>
      if start_day ≤ d ∧ d ≤ end_day then
        counts.set (date_weekday d) (counts.getD (date_weekday d) 0 + 1)
      else counts)
    (List.replicate 7 0)

/-- The weekly total of `StatsWindow._update_display`: the sum of the seven
daily counts. -/
def weekly_total (sessions : List Int) (start_day end_day : Int) : Nat :=
  (counts_per_day sessions start_day end_day).sum

namespace PomodoroTimer

theorem tickN_succ_out (t : PomodoroTimer) (k : Nat) :
    tickN t (k + 1) = (tick (tickN t k)).1 := by
  induction k generalizing t with
  | zero => rfl
  | succ n ih => rw [tickN, ih, tickN]

theorem tick_guard (t : PomodoroTimer) (h : t.state ≠ "running" ∨ t.time_left ≤ 0) :
    tick t = (t, none) := by
  rw [tick, if_pos h]

theorem tick_counting (t : PomodoroTimer) (hs : t.state = "running")
    (h1 : 1 < t.time_left) :
    tick t = ({ t with time_left := t.time_left - 1 }, none) := by
  have hcond : ¬(t.state ≠ "running" ∨ t.time_left ≤ 0) := by
    push_neg; exact ⟨hs, by omega⟩
  rw [tick, if_neg hcond, if_pos (by omega : t.time_left - 1 > 0)]

theorem tick_counting_fst (t : PomodoroTimer) (hs : t.state = "running")
    (h1 : 1 < t.time_left) :
    (tick t).1 = { t with time_left := t.time_left - 1 } := by
  rw [tick_counting t hs h1]

theorem tick_complete_work (t : PomodoroTimer) (hs : t.state = "running")
    (h1 : t.time_left = 1) (hw : t.session_type = "work") :
    tick t = ({ t with time_left := 0, state := "idle", completed_sessions := t.completed_sessions + 1 }, some "work_complete") := by
  have hcond : ¬(t.state ≠ "running" ∨ t.time_left ≤ 0) := by
    push_neg; exact ⟨hs, by omega⟩
  rw [tick, if_neg hcond, if_neg (by omega : ¬ t.time_left - 1 > 0), if_pos hw]
  rw [h1]
  norm_num

theorem tick_complete_break (t : PomodoroTimer) (hs : t.state = "running")
    (h1 : t.time_left = 1) (hw : t.session_type ≠ "work") :
    tick t = ({ t with time_left := 0, state := "idle" }, some "break_complete") := by
  have hcond : ¬(t.state ≠ "running" ∨ t.time_left ≤ 0) := by
    push_neg; exact ⟨hs, by omega⟩
  rw [tick, if_neg hcond, if_neg (by omega : ¬ t.time_left - 1 > 0), if_neg hw]
  rw [h1]
  norm_num

theorem tickN_guard (t : PomodoroTimer) (h : t.state ≠ "running" ∨ t.time_left ≤ 0)
    (k : Nat) : tickN t k = t := by
  induction k with
  | zero => rfl
  | succ n ih => rw [tickN_succ_out, ih, tick_guard t h]

theorem tickN_running (k : Nat) :
    ∀ t : PomodoroTimer, t.state = "running" → (k : Int) < t.time_left →
    tickN t k = { t with time_left := t.time_left - k } := by
  induction k with
  | zero => intro t _ _; simp [tickN]
  | succ n ih =>
    intro t hs hk
    push_cast at hk
    rw [tickN, tick_counting_fst t hs (by omega)]
    rw [ih { t with time_left := t.time_left - 1 } hs (by push_cast; omega)]
    simp only [PomodoroTimer.mk.injEq, and_true, true_and]
    push_cast
    ring

/-- The canonical shape of the timer right after calling `reset()` then
`start()`. -/
theorem start_reset_shape (t : PomodoroTimer) :
    start (reset t) =
      { settings := t.settings, state := "running", session_type := "work",
        time_left := t.settings.work_duration * 60, completed_sessions := 0 } := by
  rw [reset, start]
  norm_num

end PomodoroTimer

open PomodoroTimer

/-- C1: for every work duration D > 0 and every tick count k with
0 ≤ k < D * 60, starting from a timer whose settings have
work_duration = D, after reset() then start() then k invocations of tick(),
time_left equals D * 60 - k and the state equals "running". -/
theorem C1_countdown (t : PomodoroTimer) (D : Int) (k : Nat)
    (hD : t.settings.work_duration = D) (hDpos : 0 < D)
    (hk : (k : Int) < D * 60) :
    (tickN (start (reset t)) k).time_left = D * 60 - k ∧
    (tickN (start (reset t)) k).state = "running" := by
  rw [start_reset_shape, tickN_running k _ rfl (by simp only []; omega)]
  simp [hD]

/-- Witness for C1: with work_duration 1 and k = 59 the theorem applies and
evaluates as stated. -/
theorem C1_countdown_witness :
    (0 : Int) < 1 ∧ ((59 : Nat) : Int) < 1 * 60 ∧
    ((tickN (start (reset (init ⟨1, 5, 15, 4⟩))) 59).time_left = 1 * 60 - 59 ∧
     (tickN (start (reset (init ⟨1, 5, 15, 4⟩))) 59).state = "running") :=
  ⟨by decide, by decide,
   C1_countdown (init ⟨1, 5, 15, 4⟩) 1 59 rfl (by decide) (by decide)⟩

/-- C7: start() sets the state to "running" when it is not running and is a
no-op when already running; in every case it changes neither time_left nor
session_type nor completed_sessions (nor the settings). -/
theorem C7_start_frame (t : PomodoroTimer) :
    start t = (if t.state = "running" then t else { t with state := "running" }) ∧
    (start t).state = "running" ∧
    (start t).time_left = t.time_left ∧
    (start t).session_type = t.session_type ∧
    (start t).completed_sessions = t.completed_sessions ∧
    (start t).settings = t.settings := by
  rw [start]
  by_cases h : t.state = "running" <;> simp [h]

/-- C5: pause() sets the state to "paused" exactly when it was "running" and
is a no-op otherwise; it never changes time_left, session_type or
completed_sessions, and after pause() any number of tick() calls leaves the
whole timer (in particular time_left) unchanged. -/
theorem C5_pause_frame (t : PomodoroTimer) (k : Nat) :
    (pause t).state = (if t.state = "running" then "paused" else t.state) ∧
    (pause t).time_left = t.time_left ∧
    (pause t).session_type = t.session_type ∧
    (pause t).completed_sessions = t.completed_sessions ∧
    (pause t).settings = t.settings ∧
    tickN (pause t) k = pause t := by
  have hns : (pause t).state ≠ "running" := by
    rw [pause]
    by_cases h : t.state = "running"
    · rw [if_pos h]
      show ("paused" : String) ≠ "running"
      decide
    · rw [if_neg h]
      exact h
  refine ⟨?_, ?_, ?_, ?_, ?_, tickN_guard _ (Or.inl hns) k⟩ <;>
    (rw [pause]; by_cases h : t.state = "running" <;> simp [h])

/-- C6: for each of the three valid session types, set_session makes the
timer idle with the given session type, loads time_left from the settings
duration for that type (in minutes) times 60 (discarding any previous
countdown), raises no exception, and leaves completed_sessions (and the
settings) unchanged. -/
theorem C6_set_session_valid (t : PomodoroTimer) (new_type : String)
    (h : new_type = "work" ∨ new_type = "short_break" ∨ new_type = "long_break") :
    (set_session t new_type).2 = true ∧
    (set_session t new_type).1.state = "idle" ∧
    (set_session t new_type).1.session_type = new_type ∧
    (set_session t new_type).1.time_left =
      (if new_type = "work" then t.settings.work_duration
       else if new_type = "short_break" then t.settings.short_break
       else t.settings.long_break) * 60 ∧
    (set_session t new_type).1.completed_sessions = t.completed_sessions ∧
    (set_session t new_type).1.settings = t.settings := by
  rcases h with h | h | h <;> subst h <;>
    simp [set_session, get_duration_for_session, key_map, Settings.get]

/-- Witness for C6: switching a fresh default timer to a short break gives a
300-second idle short-break session. -/
theorem C6_set_session_valid_witness :
    (("short_break" : String) = "work" ∨ ("short_break" : String) = "short_break" ∨
       ("short_break" : String) = "long_break") ∧
    ((set_session (init ⟨25, 5, 15, 4⟩) "short_break").2 = true ∧
     (set_session (init ⟨25, 5, 15, 4⟩) "short_break").1.state = "idle" ∧
     (set_session (init ⟨25, 5, 15, 4⟩) "short_break").1.session_type = "short_break" ∧
     (set_session (init ⟨25, 5, 15, 4⟩) "short_break").1.time_left =
       (if ("short_break" : String) = "work" then (init ⟨25, 5, 15, 4⟩).settings.work_duration
        else if ("short_break" : String) = "short_break" then (init ⟨25, 5, 15, 4⟩).settings.short_break
        else (init ⟨25, 5, 15, 4⟩).settings.long_break) * 60 ∧
     (set_session (init ⟨25, 5, 15, 4⟩) "short_break").1.completed_sessions =
       (init ⟨25, 5, 15, 4⟩).completed_sessions ∧
     (set_session (init ⟨25, 5, 15, 4⟩) "short_break").1.settings =
       (init ⟨25, 5, 15, 4⟩).settings) :=
  ⟨Or.inr (Or.inl rfl),
   C6_set_session_valid (init ⟨25, 5, 15, 4⟩) "short_break" (Or.inr (Or.inl rfl))⟩

/-- C10: for any session-type string outside the three valid ones,
set_session raises KeyError (success flag false) from the key_map lookup,
but only after having already set the state to "idle" and the session_type
to the invalid string; time_left keeps its stale previous value. -/
theorem C10_set_session_invalid (t : PomodoroTimer) (s : String)
    (h1 : s ≠ "work") (h2 : s ≠ "short_break") (h3 : s ≠ "long_break") :
    set_session t s = ({ t with state := "idle", session_type := s }, false) := by
  simp [set_session, get_duration_for_session, key_map, h1, h2, h3]

/-- Witness for C10: the string "banana" is rejected after the partial
mutation. -/
theorem C10_set_session_invalid_witness :
    ("banana" : String) ≠ "work" ∧ ("banana" : String) ≠ "short_break" ∧
    ("banana" : String) ≠ "long_break" ∧
    set_session (init ⟨25, 5, 15, 4⟩) "banana" =
      ({ init ⟨25, 5, 15, 4⟩ with state := "idle", session_type := "banana" }, false) :=
  ⟨by decide, by decide, by decide,
   C10_set_session_invalid (init ⟨25, 5, 15, 4⟩) "banana" (by decide) (by decide) (by decide)⟩

/-- C3: over the field domain (a non-negative count and a positive cadence
setting), get_next_break_type returns "short_break" when no session is
completed (in particular right after the first completed session when the
cadence is 1 the count was 0 beforehand, so rule 1 fires), "long_break"
when the positive count is an exact multiple of the cadence, "short_break"
otherwise, and mutates no field of the timer. -/
theorem C3_next_break_type (t : PomodoroTimer)
    (hn : 0 < t.settings.sessions_per_long_break)
    (hc : 0 ≤ t.completed_sessions) :
    (t.completed_sessions = 0 → get_next_break_type t = "short_break") ∧
    (0 < t.completed_sessions →
       t.completed_sessions % t.settings.sessions_per_long_break = 0 →
       get_next_break_type t = "long_break") ∧
    (0 < t.completed_sessions →
       t.completed_sessions % t.settings.sessions_per_long_break ≠ 0 →
       get_next_break_type t = "short_break") ∧
    Op.apply t Op.get_next_break_type = t := by
  refine ⟨?_, ?_, ?_, rfl⟩
  · intro h0
    simp only [get_next_break_type]
    rw [if_pos h0]
  · intro hpos hmod
    simp only [get_next_break_type]
    rw [if_neg (by omega), if_pos hmod]
  · intro hpos hmod
    simp only [get_next_break_type]
    rw [if_neg (by omega), if_neg hmod]

/-- Witness for C3: with the default cadence 4 and four completed sessions
the query answers "long_break" without mutating the timer. -/
theorem C3_next_break_type_witness :
    (0 : Int) < 4 ∧ (0 : Int) ≤ 4 ∧
    (((4 : Int) = 0 → get_next_break_type ⟨⟨25, 5, 15, 4⟩, "idle", "work", 0, 4⟩ = "short_break") ∧
     ((0 : Int) < 4 → (4 : Int) % 4 = 0 →
        get_next_break_type ⟨⟨25, 5, 15, 4⟩, "idle", "work", 0, 4⟩ = "long_break") ∧
     ((0 : Int) < 4 → (4 : Int) % 4 ≠ 0 →
        get_next_break_type ⟨⟨25, 5, 15, 4⟩, "idle", "work", 0, 4⟩ = "short_break") ∧
     Op.apply ⟨⟨25, 5, 15, 4⟩, "idle", "work", 0, 4⟩ Op.get_next_break_type =
       ⟨⟨25, 5, 15, 4⟩, "idle", "work", 0, 4⟩) :=
  ⟨by decide, by decide,
   C3_next_break_type ⟨⟨25, 5, 15, 4⟩, "idle", "work", 0, 4⟩ (by decide) (by decide)⟩

/-- C2: from a fresh work session (reset() then start()) with work duration
D > 0 and n = D * 60, after n - 1 ticks the counter is still 0; the n-th
tick returns the "work_complete" event and leaves the timer idle on a
completed work session with exactly one completed session; and every later
tick() call (m more of them, with no intervening start, set_session or
reset) changes no field and returns no event. -/
theorem C2_work_complete_once (t : PomodoroTimer) (D : Int) (n m : Nat)
    (hD : t.settings.work_duration = D) (hDpos : 0 < D)
    (hn : (n : Int) = D * 60) :
    (tickN (start (reset t)) (n - 1)).completed_sessions = 0 ∧
    tick (tickN (start (reset t)) (n - 1)) =
      ({ settings := t.settings, state := "idle", session_type := "work",
         time_left := 0, completed_sessions := 1 }, some "work_complete") ∧
    tickN (start (reset t)) n =
      { settings := t.settings, state := "idle", session_type := "work",
        time_left := 0, completed_sessions := 1 } ∧
    tickN { settings := t.settings, state := "idle", session_type := "work",
            time_left := 0, completed_sessions := 1 } m =
      { settings := t.settings, state := "idle", session_type := "work",
        time_left := 0, completed_sessions := 1 } ∧
    (tick { settings := t.settings, state := "idle", session_type := "work",
            time_left := 0, completed_sessions := 1 }).2 = none := by
  have hn1 : 1 ≤ n := by omega
  have hmid : tickN (start (reset t)) (n - 1) =
      { settings := t.settings, state := "running", session_type := "work",
        time_left := 1, completed_sessions := 0 } := by
    rw [start_reset_shape, tickN_running (n - 1) _ rfl
      (by show ((n - 1 : Nat) : Int) < t.settings.work_duration * 60
          rw [hD]; omega)]
    simp only [PomodoroTimer.mk.injEq, and_true, true_and]
    show t.settings.work_duration * 60 - ((n - 1 : Nat) : Int) = 1
    rw [hD]; omega
  have hlast : tick (tickN (start (reset t)) (n - 1)) =
      ({ settings := t.settings, state := "idle", session_type := "work",
         time_left := 0, completed_sessions := 1 }, some "work_complete") := by
    rw [hmid, tick_complete_work _ rfl rfl rfl]
    norm_num
  have hidle : ({ settings := t.settings, state := "idle",
                  session_type := "work", time_left := 0,
                  completed_sessions := 1 } : PomodoroTimer).state ≠ "running" := by
    show ("idle" : String) ≠ "running"
    decide
  have hfin : tickN (start (reset t)) n =
      { settings := t.settings, state := "idle", session_type := "work",
        time_left := 0, completed_sessions := 1 } := by
    have h : n = (n - 1) + 1 := by omega
    rw [h, tickN_succ_out, hlast]
  exact ⟨by rw [hmid], hlast, hfin, tickN_guard _ (Or.inl hidle) m,
    by rw [tick_guard _ (Or.inl hidle)]⟩

/-- Witness for C2: a one-minute work session completes on the 60th tick and
three further ticks change nothing. -/
theorem C2_work_complete_once_witness :
    (init ⟨1, 5, 15, 4⟩).settings.work_duration = 1 ∧ (0 : Int) < 1 ∧
    ((60 : Nat) : Int) = 1 * 60 ∧
    ((tickN (start (reset (init ⟨1, 5, 15, 4⟩))) (60 - 1)).completed_sessions = 0 ∧
     tick (tickN (start (reset (init ⟨1, 5, 15, 4⟩))) (60 - 1)) =
       ({ settings := (init ⟨1, 5, 15, 4⟩).settings, state := "idle", session_type := "work",
          time_left := 0, completed_sessions := 1 }, some "work_complete") ∧
     tickN (start (reset (init ⟨1, 5, 15, 4⟩))) 60 =
       { settings := (init ⟨1, 5, 15, 4⟩).settings, state := "idle", session_type := "work",
         time_left := 0, completed_sessions := 1 } ∧
     tickN { settings := (init ⟨1, 5, 15, 4⟩).settings, state := "idle", session_type := "work",
             time_left := 0, completed_sessions := 1 } 3 =
       { settings := (init ⟨1, 5, 15, 4⟩).settings, state := "idle", session_type := "work",
         time_left := 0, completed_sessions := 1 } ∧
     (tick { settings := (init ⟨1, 5, 15, 4⟩).settings, state := "idle", session_type := "work",
             time_left := 0, completed_sessions := 1 }).2 = none) :=
  ⟨rfl, by decide, by decide,
   C2_work_complete_once (init ⟨1, 5, 15, 4⟩) 1 60 3 rfl (by decide) (by decide)⟩

theorem start_completed (t : PomodoroTimer) :
    (start t).completed_sessions = t.completed_sessions := by
  rw [start]; split <;> rfl

theorem pause_completed (t : PomodoroTimer) :
    (pause t).completed_sessions = t.completed_sessions := by
  rw [pause]; split <;> rfl

theorem set_session_fst_completed (t : PomodoroTimer) (s : String) :
    (set_session t s).1.completed_sessions = t.completed_sessions := by
  simp only [set_session]; split <;> rfl

theorem set_session_fst_settings (t : PomodoroTimer) (s : String) :
    (set_session t s).1.settings = t.settings := by
  simp only [set_session]; split <;> rfl

theorem tick_fst_settings (t : PomodoroTimer) : (tick t).1.settings = t.settings := by
  rw [tick]
  split
  · rfl
  · split
    · rfl
    · split <;> rfl

theorem tick_fst_completed (t : PomodoroTimer) :
    (tick t).1.completed_sessions =
      if t.state = "running" ∧ t.time_left = 1 ∧ t.session_type = "work"
      then t.completed_sessions + 1 else t.completed_sessions := by
  by_cases hs : t.state = "running"
  · by_cases h0 : t.time_left ≤ 0
    · rw [tick_guard t (Or.inr h0), if_neg (by rintro ⟨_, h1, _⟩; omega)]
    · push_neg at h0
      by_cases h1 : 1 < t.time_left
      · rw [tick_counting_fst t hs h1, if_neg (by rintro ⟨_, he, _⟩; omega)]
      · have he : t.time_left = 1 := by omega
        by_cases hw : t.session_type = "work"
        · rw [tick_complete_work t hs he hw, if_pos ⟨hs, he, hw⟩]
        · rw [tick_complete_break t hs he hw, if_neg (by rintro ⟨_, _, hw2⟩; exact hw hw2)]
  · rw [tick_guard t (Or.inl hs), if_neg (by rintro ⟨hs2, _, _⟩; exact hs hs2)]

theorem apply_settings (t : PomodoroTimer) (op : Op) :
    (Op.apply t op).settings = t.settings := by
  cases op with
  | reset => rfl
  | start => rw [Op.apply, start]; split <;> rfl
  | pause => rw [Op.apply, pause]; split <;> rfl
  | set_session s => exact set_session_fst_settings t s
  | tick => exact tick_fst_settings t
  | get_next_break_type => rfl

theorem apply_completed_nonneg (t : PomodoroTimer) (op : Op)
    (h : 0 ≤ t.completed_sessions) : 0 ≤ (Op.apply t op).completed_sessions := by
  cases op with
  | reset => exact le_refl 0
  | start => rw [Op.apply, start_completed]; exact h
  | pause => rw [Op.apply, pause_completed]; exact h
  | set_session s => rw [Op.apply, set_session_fst_completed]; exact h
  | tick =>
      rw [Op.apply, tick_fst_completed]
      split <;> omega
  | get_next_break_type => exact h

theorem foldl_completed_nonneg : ∀ (ops : List Op) (t : PomodoroTimer),
    0 ≤ t.completed_sessions →
    0 ≤ (List.foldl Op.apply t ops).completed_sessions
  | [], _, h => h
  | op :: ops, t, h =>
      foldl_completed_nonneg ops _ (apply_completed_nonneg t op h)

theorem run_completed_nonneg (s : Settings) (ops : List Op) :
    0 ≤ (run (init s) ops).completed_sessions :=
  foldl_completed_nonneg ops (init s) (le_refl 0)

theorem apply_time_left_nonneg (t : PomodoroTimer) (op : Op) (hv : op.valid)
    (hsv : t.settings.valid) (h : 0 ≤ t.time_left) :
    0 ≤ (Op.apply t op).time_left := by
  cases op with
  | reset =>
      show 0 ≤ t.settings.work_duration * 60
      have := hsv.1
      omega
  | start =>
      rw [Op.apply, start]
      split
      · exact h
      · exact h
  | pause =>
      rw [Op.apply, pause]
      split
      · exact h
      · exact h
  | set_session nt =>
      rcases hv with h1 | h1 | h1 <;> subst h1
      · show 0 ≤ (set_session t "work").1.time_left
        simp [set_session, get_duration_for_session, key_map, Settings.get]
        have h2 := hsv.1
        omega
      · show 0 ≤ (set_session t "short_break").1.time_left
        simp [set_session, get_duration_for_session, key_map, Settings.get]
        have h2 := hsv.2.1
        omega
      · show 0 ≤ (set_session t "long_break").1.time_left
        simp [set_session, get_duration_for_session, key_map, Settings.get]
        have h2 := hsv.2.2.1
        omega
  | tick =>
      rw [Op.apply, tick]
      split
      · exact h
      next hguard =>
        push_neg at hguard
        split
        · next h2 => show 0 ≤ t.time_left - 1; omega
        · split
          · show 0 ≤ t.time_left - 1; omega
          · show 0 ≤ t.time_left - 1; omega
  | get_next_break_type => exact h

theorem foldl_time_left_nonneg : ∀ (ops : List Op) (t : PomodoroTimer),
    (∀ op ∈ ops, op.valid) → t.settings.valid → 0 ≤ t.time_left →
    0 ≤ (List.foldl Op.apply t ops).time_left
  | [], _, _, _, h => h
  | op :: ops, t, hops, hsv, h =>
      foldl_time_left_nonneg ops _
        (fun o ho => hops o (List.mem_cons_of_mem _ ho))
        (by rw [apply_settings]; exact hsv)
        (apply_time_left_nonneg t op (hops op (List.mem_cons_self _ _)) hsv h)

/-- C9: from a freshly constructed timer with positive settings, any
sequence of valid engine operations keeps time_left non-negative (tick only
decrements when time_left is positive, and every reload of time_left uses a
positive duration). -/
theorem C9_time_left_nonneg (s : Settings) (ops : List Op)
    (hs : s.valid) (hops : ∀ op ∈ ops, op.valid) :
    0 ≤ (run (init s) ops).time_left := by
  refine foldl_time_left_nonneg ops (init s) hops hs ?_
  show 0 ≤ s.work_duration * 60
  have h1 := hs.1
  omega

/-- Witness for C9: a start, a tick and a session switch on the default
settings keep the countdown non-negative. -/
theorem C9_time_left_nonneg_witness :
    Settings.valid ⟨25, 5, 15, 4⟩ ∧
    0 ≤ (run (init ⟨25, 5, 15, 4⟩)
          [Op.start, Op.tick, Op.set_session "short_break"]).time_left :=
  ⟨⟨by decide, by decide, by decide, by decide⟩,
   C9_time_left_nonneg ⟨25, 5, 15, 4⟩ [Op.start, Op.tick, Op.set_session "short_break"]
     ⟨by decide, by decide, by decide, by decide⟩
     (by
       intro op hop
       simp only [List.mem_cons, List.not_mem_nil, or_false] at hop
       rcases hop with rfl | rfl | rfl
       · exact trivial
       · exact trivial
       · exact Or.inr (Or.inl rfl))⟩

/-- C8: along any operation sequence from a fresh timer, completed_sessions
strictly increases exactly when a tick moves a running work session from one
second left to zero, and then by exactly one; and once positive it can only
return to zero through reset(). -/
theorem C8_completed_increment (s : Settings) (ops : List Op) (op : Op)
    (t : PomodoroTimer) (ht : t = run (init s) ops) :
    ((Op.apply t op).completed_sessions > t.completed_sessions ↔
       op = Op.tick ∧ t.state = "running" ∧ t.time_left = 1 ∧
         t.session_type = "work") ∧
    ((Op.apply t op).completed_sessions > t.completed_sessions →
       (Op.apply t op).completed_sessions = t.completed_sessions + 1) ∧
    (0 < t.completed_sessions → (Op.apply t op).completed_sessions = 0 →
       op = Op.reset) := by
  have hc : 0 ≤ t.completed_sessions := ht ▸ run_completed_nonneg s ops
  cases op with
  | reset =>
      have he : (Op.apply t Op.reset).completed_sessions = 0 := rfl
      rw [he]
      exact ⟨⟨fun h => absurd h (by omega), fun h => nomatch h.1⟩,
             fun h => absurd h (by omega), fun _ _ => rfl⟩
  | start =>
      have he : (Op.apply t Op.start).completed_sessions = t.completed_sessions :=
        start_completed t
      rw [he]
      exact ⟨⟨fun h => absurd h (by omega), fun h => nomatch h.1⟩,
             fun h => absurd h (by omega), fun hpos h0 => absurd h0 (by omega)⟩
  | pause =>
      have he : (Op.apply t Op.pause).completed_sessions = t.completed_sessions :=
        pause_completed t
      rw [he]
      exact ⟨⟨fun h => absurd h (by omega), fun h => nomatch h.1⟩,
             fun h => absurd h (by omega), fun hpos h0 => absurd h0 (by omega)⟩
  | set_session nt =>
      have he : (Op.apply t (Op.set_session nt)).completed_sessions =
          t.completed_sessions := set_session_fst_completed t nt
      rw [he]
      exact ⟨⟨fun h => absurd h (by omega), fun h => nomatch h.1⟩,
             fun h => absurd h (by omega), fun hpos h0 => absurd h0 (by omega)⟩
  | tick =>
      have he : (Op.apply t Op.tick).completed_sessions =
          if t.state = "running" ∧ t.time_left = 1 ∧ t.session_type = "work"
          then t.completed_sessions + 1 else t.completed_sessions :=
        tick_fst_completed t
      rw [he]
      by_cases hcond : t.state = "running" ∧ t.time_left = 1 ∧ t.session_type = "work"
      · rw [if_pos hcond]
        exact ⟨⟨fun _ => ⟨rfl, hcond⟩, fun _ => by omega⟩, fun _ => rfl,
               fun hpos h0 => absurd h0 (by omega)⟩
      · rw [if_neg hcond]
        exact ⟨⟨fun h => absurd h (by omega), fun h => absurd h.2 hcond⟩,
               fun h => absurd h (by omega), fun hpos h0 => absurd h0 (by omega)⟩
  | get_next_break_type =>
      have he : (Op.apply t Op.get_next_break_type).completed_sessions =
          t.completed_sessions := rfl
      rw [he]
      exact ⟨⟨fun h => absurd h (by omega), fun h => nomatch h.1⟩,
             fun h => absurd h (by omega), fun hpos h0 => absurd h0 (by omega)⟩

/-- Witness for C8: with a one-minute work duration, after start and 59
ticks the timer is one second from completion and the next tick is exactly
the increment case. -/
theorem C8_completed_increment_witness :
    run (init ⟨1, 5, 15, 4⟩) (Op.start :: List.replicate 59 Op.tick) =
      run (init ⟨1, 5, 15, 4⟩) (Op.start :: List.replicate 59 Op.tick) ∧
    (((Op.apply (run (init ⟨1, 5, 15, 4⟩) (Op.start :: List.replicate 59 Op.tick))
          Op.tick).completed_sessions >
        (run (init ⟨1, 5, 15, 4⟩) (Op.start :: List.replicate 59 Op.tick)).completed_sessions ↔
       Op.tick = Op.tick ∧
         (run (init ⟨1, 5, 15, 4⟩) (Op.start :: List.replicate 59 Op.tick)).state = "running" ∧
         (run (init ⟨1, 5, 15, 4⟩) (Op.start :: List.replicate 59 Op.tick)).time_left = 1 ∧
         (run (init ⟨1, 5, 15, 4⟩) (Op.start :: List.replicate 59 Op.tick)).session_type = "work") ∧
     ((Op.apply (run (init ⟨1, 5, 15, 4⟩) (Op.start :: List.replicate 59 Op.tick))
          Op.tick).completed_sessions >
        (run (init ⟨1, 5, 15, 4⟩) (Op.start :: List.replicate 59 Op.tick)).completed_sessions →
       (Op.apply (run (init ⟨1, 5, 15, 4⟩) (Op.start :: List.replicate 59 Op.tick))
          Op.tick).completed_sessions =
         (run (init ⟨1, 5, 15, 4⟩) (Op.start :: List.replicate 59 Op.tick)).completed_sessions + 1) ∧
     (0 < (run (init ⟨1, 5, 15, 4⟩) (Op.start :: List.replicate 59 Op.tick)).completed_sessions →
       (Op.apply (run (init ⟨1, 5, 15, 4⟩) (Op.start :: List.replicate 59 Op.tick))
          Op.tick).completed_sessions = 0 → Op.tick = Op.reset)) :=
  ⟨rfl,
   C8_completed_increment ⟨1, 5, 15, 4⟩ (Op.start :: List.replicate 59 Op.tick) Op.tick
     (run (init ⟨1, 5, 15, 4⟩) (Op.start :: List.replicate 59 Op.tick)) rfl⟩

theorem date_weekday_lt (o : Int) : date_weekday o < 7 := by
  unfold date_weekday
  omega

theorem getD_set_bump (acc : List Nat) (w j : Nat) (hw : w < acc.length) (v : Nat) :
    (acc.set w v).getD j 0 = if w = j then v else acc.getD j 0 := by
  by_cases hwj : w = j
  · subst hwj
    rw [if_pos rfl, List.getD_eq_getElem?_getD, List.getElem?_set_self hw]
    rfl
  · rw [if_neg hwj, List.getD_eq_getElem?_getD, List.getElem?_set_ne hwj,
        ← List.getD_eq_getElem?_getD]

theorem sum_set_bump : ∀ (l : List Nat) (i : Nat), i < l.length →
    (l.set i (l.getD i 0 + 1)).sum = l.sum + 1
  | [], _, h => by simp at h
  | a :: l, 0, _ => by
      simp only [List.set_cons_zero, List.getD_cons_zero, List.sum_cons]
      omega
  | a :: l, i + 1, h => by
      simp only [List.set_cons_succ, List.getD_cons_succ, List.sum_cons]
      rw [sum_set_bump l i (by simpa using h)]
      omega

theorem counts_foldl_getD (sd ed : Int) (j : Nat) (hj : j < 7) :
    ∀ (S : List Int) (acc : List Nat), acc.length = 7 →
      (S.foldl
        (fun counts d =>
          if sd ≤ d ∧ d ≤ ed then
            counts.set (date_weekday d) (counts.getD (date_weekday d) 0 + 1)
          else counts)
        acc).getD j 0 =
      acc.getD j 0 +
        S.countP (fun d => decide (sd ≤ d ∧ d ≤ ed) && (date_weekday d == j))
  | [], acc, _ => by simp
  | d :: S, acc, hacc => by
    rw [List.foldl_cons, List.countP_cons]
    by_cases hin : sd ≤ d ∧ d ≤ ed
    · rw [if_pos hin,
          counts_foldl_getD sd ed j hj S _ (by rw [List.length_set]; exact hacc),
          getD_set_bump acc (date_weekday d) j (by rw [hacc]; exact date_weekday_lt d)]
      by_cases hwj : date_weekday d = j
      · rw [if_pos hwj, hwj]
        have hb : (decide (sd ≤ d ∧ d ≤ ed) && (j == j)) = true := by
          simp [hin]
        rw [hb, if_pos rfl]
        omega
      · rw [if_neg hwj]
        have hp : (decide (sd ≤ d ∧ d ≤ ed) && (date_weekday d == j)) = false := by
          simp [hwj]
        simp only [hp]
        simp
    · rw [if_neg hin, counts_foldl_getD sd ed j hj S acc hacc]
      have hp : (decide (sd ≤ d ∧ d ≤ ed) && (date_weekday d == j)) = false := by
        simp [hin]
      simp only [hp]
      simp

theorem counts_foldl_sum (sd ed : Int) :
    ∀ (S : List Int) (acc : List Nat), acc.length = 7 →
      (S.foldl
        (fun counts d =>
          if sd ≤ d ∧ d ≤ ed then
            counts.set (date_weekday d) (counts.getD (date_weekday d) 0 + 1)
          else counts)
        acc).sum =
      acc.sum + S.countP (fun d => decide (sd ≤ d ∧ d ≤ ed))
  | [], acc, _ => by simp
  | d :: S, acc, hacc => by
    rw [List.foldl_cons, List.countP_cons]
    by_cases hin : sd ≤ d ∧ d ≤ ed
    · rw [if_pos hin,
          counts_foldl_sum sd ed S _ (by rw [List.length_set]; exact hacc),
          sum_set_bump acc (date_weekday d) (by rw [hacc]; exact date_weekday_lt d)]
      simp [hin]
      omega
    · rw [if_neg hin, counts_foldl_sum sd ed S acc hacc]
      simp [hin]

theorem counts_per_day_getD (sd ed : Int) (S : List Int) (j : Nat) (hj : j < 7) :
    (counts_per_day S sd ed).getD j 0 =
      S.countP (fun d => decide (sd ≤ d ∧ d ≤ ed) && (date_weekday d == j)) := by
  rw [counts_per_day, counts_foldl_getD sd ed j hj S (List.replicate 7 0) (by simp)]
  have hz : (List.replicate 7 (0 : Nat)).getD j 0 = 0 := by
    rw [List.getD_eq_getElem?_getD, List.getElem?_replicate]
    split <;> rfl
  rw [hz, Nat.zero_add]

theorem weekly_total_countP (sd ed : Int) (S : List Int) :
    weekly_total S sd ed = S.countP (fun d => decide (sd ≤ d ∧ d ≤ ed)) := by
  rw [weekly_total, counts_per_day,
      counts_foldl_sum sd ed S (List.replicate 7 0) (by simp)]
  simp

/-- C4: the weekly window starts at the most recent Monday on or before the
reference date shifted by 7 * offset days (it is Monday-aligned, at most six
days before the reference for offset 0, and moves in whole weeks with the
offset); each bucket of the aggregation counts exactly the sessions inside
the inclusive 7-day window whose weekday is that bucket's index (Monday = 0
.. Sunday = 6, sessions outside ignored); the weekly total is the number of
in-window sessions; and on the concrete instance with sessions 2024-06-03,
2024-06-05, 2024-06-09, reference 2024-06-05 and offset 0 the counts are
[1, 0, 1, 0, 0, 0, 1] with total 3. -/
theorem C4_weekly_aggregation (ref off : Int) (S : List Int) (j : Nat)
    (hj : j < 7) :
    (start_of_week ref off = start_of_week ref 0 + 7 * off ∧
     date_weekday (start_of_week ref off) = 0 ∧
     start_of_week ref 0 ≤ ref ∧ ref < start_of_week ref 0 + 7) ∧
    (counts_per_day S (start_of_week ref off) (start_of_week ref off + 6)).getD j 0 =
      S.countP (fun d =>
        decide (start_of_week ref off ≤ d ∧ d ≤ start_of_week ref off + 6) &&
          (date_weekday d == j)) ∧
    weekly_total S (start_of_week ref off) (start_of_week ref off + 6) =
      S.countP (fun d =>
        decide (start_of_week ref off ≤ d ∧ d ≤ start_of_week ref off + 6)) ∧
    counts_per_day [toordinal 2024 6 3, toordinal 2024 6 5, toordinal 2024 6 9]
        (start_of_week (toordinal 2024 6 5) 0)
        (start_of_week (toordinal 2024 6 5) 0 + 6) = [1, 0, 1, 0, 0, 0, 1] ∧
    weekly_total [toordinal 2024 6 3, toordinal 2024 6 5, toordinal 2024 6 9]
        (start_of_week (toordinal 2024 6 5) 0)
        (start_of_week (toordinal 2024 6 5) 0 + 6) = 3 := by
  refine ⟨⟨?_, ?_, ?_, ?_⟩,
          counts_per_day_getD _ _ S j hj, weekly_total_countP _ _ S,
          by decide, by decide⟩
  · unfold start_of_week date_weekday
    omega
  · unfold start_of_week date_weekday
    omega
  · unfold start_of_week date_weekday
    omega
  · unfold start_of_week date_weekday
    omega

/-- Witness for C4: reference day 3, offset 0, one session on day 3,
bucket index 2. -/
theorem C4_weekly_aggregation_witness :
    (2 : Nat) < 7 ∧
    ((start_of_week 3 0 = start_of_week 3 0 + 7 * 0 ∧
      date_weekday (start_of_week 3 0) = 0 ∧
      start_of_week 3 0 ≤ 3 ∧ (3 : Int) < start_of_week 3 0 + 7) ∧
     (counts_per_day [3] (start_of_week 3 0) (start_of_week 3 0 + 6)).getD 2 0 =
       List.countP (fun d =>
         decide (start_of_week 3 0 ≤ d ∧ d ≤ start_of_week 3 0 + 6) &&
           (date_weekday d == 2)) [3] ∧
     weekly_total [3] (start_of_week 3 0) (start_of_week 3 0 + 6) =
       List.countP (fun d =>
         decide (start_of_week 3 0 ≤ d ∧ d ≤ start_of_week 3 0 + 6)) [3] ∧
     counts_per_day [toordinal 2024 6 3, toordinal 2024 6 5, toordinal 2024 6 9]
         (start_of_week (toordinal 2024 6 5) 0)
         (start_of_week (toordinal 2024 6 5) 0 + 6) = [1, 0, 1, 0, 0, 0, 1] ∧
     weekly_total [toordinal 2024 6 3, toordinal 2024 6 5, toordinal 2024 6 9]
         (start_of_week (toordinal 2024 6 5) 0)
         (start_of_week (toordinal 2024 6 5) 0 + 6) = 3) :=
  ⟨by decide, C4_weekly_aggregation 3 0 [3] 2 (by decide)⟩
